import Mathlib

/-!
Shallow embedding of the suricatatalk/mail repository.

Client side (src/client/client.go, first revision; src/unnamed/part_000 is an
earlier revision of the same package): `Email`, `SuricataMessageComposer`,
`SuricataMailClient` with `resolveUrl` and `SendMail`.

Server side (src/unnamed/part_001, package main): `mailStruct`,
`MailGunMailer` with `SendMail` (Submit), the worker goroutine started by
`NewMailGun`, and the ingress adapters `HttpMailerFunc` / `NatsMailerFunc`.

Go's effectful collaborators (the etcd discovery client, json.Marshal,
http.Post, the Mailgun provider) are passed as explicit function parameters;
Go's `(value, error)` pairs become `α × Option GoErr`.
-/

namespace MailVerify

/-- Error values of the program.  Go errors are compared by identity; each
`fmt.Errorf` sentinel of the source becomes one constructor, and errors
produced by external collaborators carry a message string. -/
inductive GoErr where
  /-- `ErrMailServiceNotFound = fmt.Errorf("mailclient: Cannot resolve service host")` -/
  | mailServiceNotFound
  /-- `ErrMailClientNotInitialized = fmt.Errorf("mailclient: MailClient not initialized")` -/
  | mailClientNotInitialized
  /-- `ErrMailerNotInitialized = fmt.Errorf("mailgunmailer: Mailer not initialized yet")` -/
  | mailerNotInitialized
  /-- an error returned by the Directory (`ServicesByName`) -/
  | directoryErr (msg : String)
  /-- an error returned by `http.Post` -/
  | httpPostErr (msg : String)
  /-- an error returned by `json.Marshal` -/
  | jsonMarshalErr (msg : String)
  /-- a `text/template` execution error: the referenced field is missing -/
  | templateFieldMissing (field : String)
  deriving DecidableEq, Repr

/-- `Email` (client.go lines 24-28): the JSON document POSTed to the mail
microservice. -/
structure Email where
  Recipient : String
  Subject   : String
  Message   : String
  deriving DecidableEq, Repr

/-! ## text/template model

A parsed Go template is a sequence of nodes: literal text and field actions
(the source templates only use literal text and a single field action such as
as in "... this link \x7b\x7bConfirmationLink\x7d\x7d").  `Execute` streams
output into the buffer node by node and stops at the first failing field
lookup, leaving the already-written prefix in the buffer, as Go's
text/template does. -/

/-- One node of a parsed template: literal text, or a field action. -/
inductive TNode where
  | text (s : String)
  | field (name : String)
  deriving DecidableEq, Repr

/-- A parsed `text/template` template: its list of nodes. -/
structure GoTemplate where
  nodes : List TNode
  deriving DecidableEq, Repr

/-- The data value handed to `Execute`: field lookup, `none` when the data
does not expose the field (which makes Go's `Execute` fail). -/
def TData : Type := String → Option String

/-- `Template.Execute` on a buffer already holding `buf`: renders nodes in
order, appending to the buffer; a missing field stops execution, returning
the buffer as written so far together with the error. -/
def executeNodes : List TNode → TData → String → String × Option GoErr
  | [], _, buf => (buf, none)
  | .text s :: rest, d, buf => executeNodes rest d (buf ++ s)
  | .field n :: rest, d, buf =>
    match d n with
    | some v => executeNodes rest d (buf ++ v)
    | none => (buf, some (.templateFieldMissing n))

/-- `(*template.Template).Execute(&buf, data)` starting from an empty
`bytes.Buffer`. -/
def GoTemplate.execute (t : GoTemplate) (data : TData) : String × Option GoErr :=
  executeNodes t.nodes data ""

/-- `SuricataMessageComposer` (client.go lines 40-43). -/
structure SuricataMessageComposer where
  SubjectTemplate : GoTemplate
  MessageTemplate : GoTemplate

/-- `ComposeSubject` (client.go lines 45-49): executes the subject template
into a fresh buffer, ignores the error returned by `Execute`, and returns the
buffer contents. -/
def SuricataMessageComposer.ComposeSubject (mc : SuricataMessageComposer)
    (data : TData) : String :=
  (mc.SubjectTemplate.execute data).1

/-- `ComposeMessage` (client.go lines 51-55): same shape as `ComposeSubject`
over the message template. -/
def SuricataMessageComposer.ComposeMessage (mc : SuricataMessageComposer)
    (data : TData) : String :=
  (mc.MessageTemplate.execute data).1

/-- Modelled from the spec (§4.1): the rendered output on failure is "an
empty or partial string", namely the concatenation of the renderings of the
nodes strictly before the first failing field lookup. -/
def partialRender : List TNode → TData → String
  | [], _ => ""
  | .text s :: rest, d => s ++ partialRender rest d
  | .field n :: rest, d =>
    match d n with
    | some v => v ++ partialRender rest d
    | none => ""

/-- The parse of the source's subject template literal
"Suricata: Registration confirmation": a single text node. -/
def subjectTemplateSuricata : GoTemplate :=
  ⟨[.text "Suricata: Registration confirmation"]⟩

/-- The parse of the source's message template literal, text followed by the
`ConfirmationLink` field action. -/
def messageTemplateSuricata : GoTemplate :=
  ⟨[.text "Please confirm the registration on Suricata Talk website with click on this link ",
    .field "ConfirmationLink"]⟩

/-- The composer built from the two source template literals (the composer
the Message Composer section of the spec describes). -/
def suricataComposer : SuricataMessageComposer :=
  ⟨subjectTemplateSuricata, messageTemplateSuricata⟩

/-! ## JSON serialization of `Email`

`json.Marshal` on `Email`, a struct of three exported plain `string` fields:
Go's encoder emits the object in field order with HTML-escaped strings, and
has no error path for string-typed fields, so the returned error is always
nil. -/

/-- One hexadecimal digit, lowercase, as encoding/json emits it. -/
def hexDigit (n : Nat) : String :=
  String.singleton (Char.ofNat (if n < 10 then 48 + n else 87 + n))

/-- encoding/json string escaping of a single character (HTML escaping on,
as for `json.Marshal`). -/
def jsonEscapeChar (c : Char) : String :=
  if c = '"' then "\\\""
  else if c = '\\' then "\\\\"
  else if c = '\n' then "\\n"
  else if c = '\r' then "\\r"
  else if c = '\t' then "\\t"
  else if c = '<' then "\\u003c"
  else if c = '>' then "\\u003e"
  else if c = '&' then "\\u0026"
  else if c.toNat < 32 then "\\u00" ++ hexDigit (c.toNat / 16) ++ hexDigit (c.toNat % 16)
  else String.singleton c

/-- A JSON string literal for `s`. -/
def jsonQuote (s : String) : String :=
  "\"" ++ String.join (s.data.map jsonEscapeChar) ++ "\""

/-- The document `json.Marshal` produces for an `Email` value. -/
def jsonMarshalEmail (e : Email) : String :=
  "\x7b\"Recipient\":" ++ jsonQuote e.Recipient ++
    ",\"Subject\":" ++ jsonQuote e.Subject ++
    ",\"Message\":" ++ jsonQuote e.Message ++ "\x7d"

/-- `json.Marshal` as the `(bytes, error)` pair the code consumes.  For a
struct of three plain string fields the encoder cannot fail, so the error
component is always nil. -/
def jsonMarshal (e : Email) : String × Option GoErr :=
  (jsonMarshalEmail e, none)

/-! ## SuricataMailClient -/

/-- `SuricataMailClient` (client.go lines 69-71): holds the discovery
client, of which the code consumes only `ServicesByName`, modelled as a
function from service name to Go's `([]string, error)` pair. -/
structure SuricataMailClient where
  discoveryClient : String → List String × Option GoErr

/-- `MailServiceType = "mail"` -/
def MailServiceType : String := "mail"

/-- `HttpMIMEBodyType = "application/json"` -/
def HttpMIMEBodyType : String := "application/json"

/-- `resolveUrl` (client.go lines 130-140): queries the Directory for the
mail service; propagates a Directory error unchanged; an empty address list
yields `ErrMailServiceNotFound`; otherwise the URL is `http://` prefixed to
the first address. -/
def SuricataMailClient.resolveUrl (client : SuricataMailClient) :
    String × Option GoErr :=
  let r := client.discoveryClient MailServiceType
  match r.2 with
  | some e => ("", some e)
  | none =>
    match r.1 with
    | [] => ("", some .mailServiceNotFound)
    | u :: _ => ("http://" ++ u, none)

/-- The `Email` value composed by `SendMail` (client.go lines 106-112): the
three string arguments verbatim. -/
def sendMailEmail (recipient subject message : String) : Email :=
  { Recipient := recipient, Subject := subject, Message := message }

/-- One HTTP POST issued by the client: url, content type, body. -/
structure HttpReq where
  url : String
  contentType : String
  body : String
  deriving DecidableEq, Repr

/-- `SendMail` (client.go lines 99-128).  `marshal` stands for
`json.Marshal` and `post` for `http.Post` (returning Go's `(resp, error)`
pair); the second component of the result is the list of POSTs performed.
The serialization branch returns `err` — the error variable of the earlier
`resolveUrl` call, which is nil on this path — exactly as the source does. -/
def SuricataMailClient.SendMail (client : SuricataMailClient)
    (marshal : Email → String × Option GoErr)
    (post : String → String → String → String × Option GoErr)
    (recipient subject message : String) :
    Option GoErr × List HttpReq :=
  let r := client.resolveUrl
  let serviceURL := r.1
  let err := r.2
  match err with
  | some e => (some e, [])
  | none =>
    let eMsg := sendMailEmail recipient subject message
    let m := marshal eMsg
    let out := m.1
    let jsonError := m.2
    match jsonError with
    | some _ => (err, [])
    | none =>
      let p := post serviceURL HttpMIMEBodyType out
      let postErr := p.2
      match postErr with
      | some pe => (some pe, [⟨serviceURL, HttpMIMEBodyType, out⟩])
      | none => (none, [⟨serviceURL, HttpMIMEBodyType, out⟩])

/-- The `Email` value composed by the `SendMail` revision in
src/unnamed/part_000 (lines 78-82): the recipient argument, the hard-coded
subject constant, and an empty message. -/
def sendMailEmailPart000 (recipient : String) : Email :=
  ⟨recipient, "Suricata: Registration confirmation", ""⟩

/-- Modelled from the spec (the implicit-claim reading of `SendMail`): the
result as a function of the resolution outcome and the POST outcome alone. -/
def sendMailOutcome (client : SuricataMailClient)
    (post : String → String → String → String × Option GoErr)
    (recipient subject message : String) :
    Option GoErr × List HttpReq :=
  match client.resolveUrl with
  | (_, some e) => (some e, [])
  | (url, none) =>
    let out := jsonMarshalEmail (sendMailEmail recipient subject message)
    match (post url HttpMIMEBodyType out).2 with
    | some pe => (some pe, [⟨url, HttpMIMEBodyType, out⟩])
    | none => (none, [⟨url, HttpMIMEBodyType, out⟩])

/-! ## Dispatch engine (src/unnamed/part_001, package main) -/

/-- `mailStruct` (part_001 lines 141-146): the envelope decoded by both
ingress adapters and handed through the channel, fields in source order. -/
structure mailStruct where
  Sender    : String
  Message   : String
  Subject   : String
  Recipient : String
  deriving DecidableEq, Repr

/-- The message the Mailgun SDK builds in
`mailgun.NewMessage(from, subject, text, to)`. -/
structure MailgunMessage where
  fromAddr : String
  subject  : String
  text     : String
  toAddr   : String
  deriving DecidableEq, Repr

/-- `mailgun.NewMessage(from, subject, text, to)`. -/
def newMessage (fromAddr subject text toAddr : String) : MailgunMessage :=
  ⟨fromAddr, subject, text, toAddr⟩

/-- The outcome of one `mg.Send(message)` call: Go's
`(response, id, error)` triple. -/
def SendOutcome : Type := String × String × Option GoErr

/-- `MailGunMailer` (part_001 lines 157-162).  The unbuffered hand-off
channel is modelled as the FIFO list of messages accepted and not yet
dequeued; `none` models a nil (unset) channel.  The embedded Mailgun handle
and the cancel function are carried by the worker model instead. -/
structure MailGunMailer where
  sendChannel : Option (List mailStruct)
  sender : String

/-- `NewMailGun` (part_001 lines 164-187): builds the mailer with a fresh
(empty, set) channel and the configured sender, and starts the worker
goroutine (modelled separately by `workerRun`). -/
def NewMailGun (domain apiKey sender : String) : MailGunMailer :=
  { sendChannel := some [], sender := sender }

/-- `MailGunMailer.SendMail` (part_001 lines 189-202), the engine's Submit:
a nil channel yields `ErrMailerNotInitialized`; otherwise the positional
literal `mailStruct{mgm.sender, message, subject, recipient}` is sent on the
channel and nil is returned.  The Provider is not consulted here at all. -/
def MailGunMailer.SendMail (mgm : MailGunMailer)
    (subject message recipient : String) : Option GoErr × MailGunMailer :=
  match mgm.sendChannel with
  | none => (some .mailerNotInitialized, mgm)
  | some q =>
    (none, ⟨some (q ++ [⟨mgm.sender, message, subject, recipient⟩]), mgm.sender⟩)

/-- The worker goroutine of `NewMailGun` (part_001 lines 171-185), run over
the messages it dequeues before cancellation: for each dequeued `m` it builds
`mailgun.NewMessage(m.Sender, m.Subject, m.Message, m.Recipient)` and calls
`mg.Send` on it exactly once, logging (never propagating, never retrying) the
outcome, then loops.  `send` is the opaque Provider. -/
def workerRun (send : MailgunMessage → SendOutcome) :
    List mailStruct → List (MailgunMessage × SendOutcome)
  | [] => []
  | m :: rest =>
    let message := newMessage m.Sender m.Subject m.Message m.Recipient
    (message, send message) :: workerRun send rest

/-- `HttpMailerFunc` (part_001 lines 125-133), after the JSON decode: the
handler forwards the decoded envelope's subject, message and recipient into
`SendMail` (the envelope's `Sender` is not passed), ignores the returned
error, and responds independently of the send outcome.  A malformed or empty
request body leaves `mail` at its zero value, decode errors being unchecked. -/
def HttpMailerFunc (m : MailGunMailer) (mail : mailStruct) :
    Option GoErr × MailGunMailer :=
  m.SendMail mail.Subject mail.Message mail.Recipient

/-- `NatsMailerFunc` (part_001 lines 117-122): the queue subscriber forwards
the decoded envelope exactly as the HTTP handler does. -/
def NatsMailerFunc (m : MailGunMailer) (mail : mailStruct) :
    Option GoErr × MailGunMailer :=
  m.SendMail mail.Subject mail.Message mail.Recipient

/-! ## Helper lemmas -/

/-- The worker performs exactly one Provider send per dequeued message. -/
theorem workerRun_length (send : MailgunMessage → SendOutcome) (q : List mailStruct) :
    (workerRun send q).length = q.length := by
  induction q with
  | nil => rfl
  | cons m rest ih => simp [workerRun, ih]

/-- The worker processes a concatenation of queues piecewise. -/
theorem workerRun_append (send : MailgunMessage → SendOutcome) (q1 q2 : List mailStruct) :
    workerRun send (q1 ++ q2) = workerRun send q1 ++ workerRun send q2 := by
  induction q1 with
  | nil => simp [workerRun]
  | cons m rest ih => simp [workerRun, ih]

/-- `Execute` leaves in the buffer exactly the initial contents followed by
the rendering of the nodes before the first failing field lookup. -/
theorem executeNodes_fst (nodes : List TNode) (d : TData) (buf : String) :
    (executeNodes nodes d buf).1 = buf ++ partialRender nodes d := by
  induction nodes generalizing buf with
  | nil => simp [executeNodes, partialRender]
  | cons n rest ih =>
    cases n with
    | text s => simp [executeNodes, partialRender, ih, String.append_assoc]
    | field f =>
      cases hd : d f with
      | some v => simp [executeNodes, partialRender, hd, ih, String.append_assoc]
      | none => simp [executeNodes, partialRender, hd]

/-! ## Claim theorems -/

/-- C1: for every message submitted to a started Dispatch Engine via Submit
(`MailGunMailer.SendMail subject message recipient`), the worker makes
exactly one `Provider.Send` call for that message, and the Provider receives
the engine's configured sender as sender, the submitted subject as subject,
the submitted message as body and the submitted recipient as recipient,
field for field; moreover the worker makes exactly one send per dequeued
message over any queue. -/
theorem submit_yields_one_matching_provider_send
    (send : MailgunMessage → SendOutcome)
    (domain apiKey sender subject message recipient : String) :
    ((NewMailGun domain apiKey sender).SendMail subject message recipient).1 = none ∧
    ((NewMailGun domain apiKey sender).SendMail subject message recipient).2.sendChannel =
      some [⟨sender, message, subject, recipient⟩] ∧
    (workerRun send [⟨sender, message, subject, recipient⟩]).map Prod.fst =
      [⟨sender, subject, message, recipient⟩] ∧
    (∀ q : List mailStruct, (workerRun send q).length = q.length) :=
  ⟨rfl, rfl, rfl, workerRun_length send⟩

/-- C2 (code behaviour at the failing input): when the Directory resolves
and `json.Marshal` fails, `SendMail` returns the `err` variable of the
resolution step — nil on this path — rather than the serialization error,
and performs no POST. -/
theorem sendMail_swallows_serialization_error :
    SuricataMailClient.SendMail ⟨fun _ => (["127.0.0.1:3030"], none)⟩
      (fun _ => ("", some (GoErr.jsonMarshalErr "marshal failure")))
      (fun _ _ _ => ("", none))
      "sohlich@gmail.com" "Subj" "Message" = (none, []) := rfl

/-- C3 (counterexample): calling `SendMail` with subject argument "Subj"
POSTs an Email whose `Subject` is the argument verbatim, while the Message
Composer built from the source templates renders the subject
"Suricata: Registration confirmation" — so the outgoing subject is not the
composer rendering. -/
theorem sendMail_subject_not_composed :
    (SuricataMailClient.SendMail ⟨fun _ => (["127.0.0.1:3030"], none)⟩ jsonMarshal
        (fun _ _ _ => ("", none)) "sohlich@gmail.com" "Subj" "Message").2 =
      [⟨"http://127.0.0.1:3030", "application/json",
        jsonMarshalEmail (sendMailEmail "sohlich@gmail.com" "Subj" "Message")⟩] ∧
    (sendMailEmail "sohlich@gmail.com" "Subj" "Message").Subject = "Subj" ∧
    suricataComposer.ComposeSubject (fun _ => none) =
      "Suricata: Registration confirmation" ∧
    "Subj" ≠ "Suricata: Registration confirmation" :=
  ⟨rfl, rfl, rfl, by decide⟩

/-- C3 (amended): `SendMail` does not invoke the Message Composer — in
client.go the outgoing Email carries the subject and message string
arguments verbatim, and in the part_000 revision the subject is the
hard-coded constant with an empty body. -/
theorem sendMail_payload_verbatim (client : SuricataMailClient)
    (post : String → String → String → String × Option GoErr)
    (recipient subject message url : String)
    (h : client.resolveUrl = (url, none)) :
    (client.SendMail jsonMarshal post recipient subject message).2 =
      [⟨url, "application/json", jsonMarshalEmail ⟨recipient, subject, message⟩⟩] ∧
    sendMailEmailPart000 recipient =
      ⟨recipient, "Suricata: Registration confirmation", ""⟩ := by
  constructor
  · rcases hpost : post url HttpMIMEBodyType
        (jsonMarshalEmail (sendMailEmail recipient subject message)) with ⟨resp, perr⟩
    simp only [HttpMIMEBodyType, sendMailEmail] at hpost
    rcases perr with _ | pe <;>
      simp [SuricataMailClient.SendMail, jsonMarshal, sendMailEmail, h, hpost,
        HttpMIMEBodyType]
  · rfl

/-- C3 (amended, witness): instance of `sendMail_payload_verbatim` at a
concrete Directory and POST. -/
theorem sendMail_payload_verbatim_witness :
    (SuricataMailClient.SendMail ⟨fun _ => (["127.0.0.1:3030"], none)⟩ jsonMarshal
        (fun _ _ _ => ("", none)) "sohlich@gmail.com" "Subj" "Message").2 =
      [⟨"http://127.0.0.1:3030", "application/json",
        jsonMarshalEmail ⟨"sohlich@gmail.com", "Subj", "Message"⟩⟩] :=
  (sendMail_payload_verbatim ⟨fun _ => (["127.0.0.1:3030"], none)⟩
    (fun _ _ _ => ("", none)) "sohlich@gmail.com" "Subj" "Message"
    "http://127.0.0.1:3030" rfl).1

/-- C4: Submit returns `ErrMailerNotInitialized` exactly when the hand-off
channel is unset, and for every engine whose channel is set it returns nil
unconditionally — the Provider is not consulted by Submit at all, so a
Provider-side send error (which occurs later, inside `workerRun`) can never
be the submitter's result. -/
theorem submit_notInitialized_iff_channel_unset
    (mgm : MailGunMailer) (subject message recipient : String) :
    (((mgm.SendMail subject message recipient).1 = some GoErr.mailerNotInitialized) ↔
      mgm.sendChannel = none) ∧
    (∀ q : List mailStruct, mgm.sendChannel = some q →
      (mgm.SendMail subject message recipient).1 = none) := by
  obtain ⟨ch, s⟩ := mgm
  cases ch with
  | none => simp [MailGunMailer.SendMail]
  | some q => simp [MailGunMailer.SendMail]

/-- C4 (witness): instance of `submit_notInitialized_iff_channel_unset` at a
freshly started engine. -/
theorem submit_notInitialized_iff_channel_unset_witness :
    ((NewMailGun "dom" "key" "info@suricata.com").SendMail "s" "m" "r").1 = none :=
  (submit_notInitialized_iff_channel_unset
    (NewMailGun "dom" "key" "info@suricata.com") "s" "m" "r").2 [] rfl

/-- C5: `resolveUrl` turns a successful Directory call with an empty address
list into `ErrMailServiceNotFound` with no address, and propagates a failing
Directory call's error unchanged. -/
theorem resolveUrl_error_propagation (client : SuricataMailClient) :
    (client.discoveryClient "mail" = ([], none) →
      client.resolveUrl = ("", some GoErr.mailServiceNotFound)) ∧
    (∀ (l : List String) (e : GoErr),
      client.discoveryClient "mail" = (l, some e) →
      client.resolveUrl = ("", some e)) := by
  constructor
  · intro h
    simp [SuricataMailClient.resolveUrl, MailServiceType, h]
  · intro l e h
    simp [SuricataMailClient.resolveUrl, MailServiceType, h]

/-- C5 (witness): instance of `resolveUrl_error_propagation` at a Directory
returning the empty list. -/
theorem resolveUrl_error_propagation_witness :
    SuricataMailClient.resolveUrl ⟨fun _ => ([], none)⟩ =
      ("", some GoErr.mailServiceNotFound) :=
  (resolveUrl_error_propagation ⟨fun _ => ([], none)⟩).1 rfl

/-- C6: for every non-empty address list returned by the Directory for
service "mail", `resolveUrl` selects the first address in returned order and
prefixes it with the scheme. -/
theorem resolveUrl_selects_first_address (client : SuricataMailClient)
    (u : String) (rest : List String)
    (h : client.discoveryClient "mail" = (u :: rest, none)) :
    client.resolveUrl = ("http://" ++ u, none) := by
  simp [SuricataMailClient.resolveUrl, MailServiceType, h]

/-- C6 (witness): given the Directory list ["127.0.0.1:3030"], `resolveUrl`
returns the URL for host 127.0.0.1 port 3030 and no error, by
`resolveUrl_selects_first_address`. -/
theorem resolveUrl_selects_first_address_witness :
    SuricataMailClient.resolveUrl ⟨fun _ => (["127.0.0.1:3030"], none)⟩ =
      ("http://127.0.0.1:3030", none) :=
  resolveUrl_selects_first_address ⟨fun _ => (["127.0.0.1:3030"], none)⟩
    "127.0.0.1:3030" [] rfl

/-- C7: `ComposeSubject` and `ComposeMessage` are total and never propagate
a rendering failure: for every template and data value the returned string
is exactly what was written to the buffer before the first failure — the
rendering of the nodes preceding the first missing field (the whole
rendering when nothing fails, a partial or empty string otherwise). -/
theorem compose_returns_partial_render (mc : SuricataMessageComposer) (data : TData) :
    mc.ComposeSubject data = partialRender mc.SubjectTemplate.nodes data ∧
    mc.ComposeMessage data = partialRender mc.MessageTemplate.nodes data := by
  constructor <;>
    simp [SuricataMessageComposer.ComposeSubject, SuricataMessageComposer.ComposeMessage,
      GoTemplate.execute, executeNodes_fst]

/-- C8 (counterexample): the zero-valued envelope (what a malformed or empty
HTTP body decodes to, decode errors being unchecked) is accepted by the
ingress adapter, handed through Submit, and delivered to the Provider with
an empty recipient — the non-empty-recipient invariant is not enforced at
any boundary. -/
theorem empty_recipient_reaches_provider :
    ((HttpMailerFunc (NewMailGun "dom" "key" "info@suricata.com")
        ⟨"", "", "", ""⟩).2).sendChannel =
      some [⟨"info@suricata.com", "", "", ""⟩] ∧
    (workerRun (fun _ => ("", "", none)) [⟨"info@suricata.com", "", "", ""⟩]).map
      Prod.fst = [⟨"info@suricata.com", "", "", ""⟩] ∧
    (⟨"info@suricata.com", "", "", ""⟩ : MailgunMessage).toAddr = "" :=
  ⟨rfl, rfl, rfl⟩

/-- C8 (amended): the recipient field is forwarded verbatim across the
boundaries — ingress adapter, Submit, worker, Provider — with no
non-emptiness check anywhere: the Provider receives exactly the submitted
recipient, empty or not. -/
theorem recipient_forwarded_verbatim (eng : MailGunMailer) (q : List mailStruct)
    (envelope : mailStruct) (send : MailgunMessage → SendOutcome)
    (h : eng.sendChannel = some q) :
    ((HttpMailerFunc eng envelope).2).sendChannel =
      some (q ++ [⟨eng.sender, envelope.Message, envelope.Subject, envelope.Recipient⟩]) ∧
    (workerRun send
        (q ++ [⟨eng.sender, envelope.Message, envelope.Subject, envelope.Recipient⟩])).map
        Prod.fst =
      (workerRun send q).map Prod.fst ++
        [⟨eng.sender, envelope.Subject, envelope.Message, envelope.Recipient⟩] := by
  constructor
  · simp [HttpMailerFunc, MailGunMailer.SendMail, h]
  · simp [workerRun_append, workerRun, newMessage]

/-- C8 (amended, witness): instance of `recipient_forwarded_verbatim` at an
envelope with empty recipient. -/
theorem recipient_forwarded_verbatim_witness :
    ((HttpMailerFunc (NewMailGun "dom" "key" "info@suricata.com")
        ⟨"someone@else", "body", "subject", ""⟩).2).sendChannel =
      some [⟨"info@suricata.com", "body", "subject", ""⟩] :=
  (recipient_forwarded_verbatim (NewMailGun "dom" "key" "info@suricata.com") []
    ⟨"someone@else", "body", "subject", ""⟩ (fun _ => ("", "", none)) rfl).1

/-- C9: the ingress envelope's `Sender` field is discarded unconditionally —
the HTTP handler never passes it to Submit, Submit fills the engine's
configured sender, and the Provider's `from` is the configured sender, even
for an envelope carrying a non-empty `Sender` different from it. -/
theorem provider_sender_is_engine_sender (eng : MailGunMailer) (q : List mailStruct)
    (envelope : mailStruct) (send : MailgunMessage → SendOutcome)
    (h : eng.sendChannel = some q) (hne : envelope.Sender ≠ "")
    (hdiff : envelope.Sender ≠ eng.sender) :
    (∀ s2 : String,
      HttpMailerFunc eng ⟨s2, envelope.Message, envelope.Subject, envelope.Recipient⟩ =
        HttpMailerFunc eng envelope) ∧
    ((HttpMailerFunc eng envelope).2).sendChannel =
      some (q ++ [⟨eng.sender, envelope.Message, envelope.Subject, envelope.Recipient⟩]) ∧
    (workerRun send [⟨eng.sender, envelope.Message, envelope.Subject, envelope.Recipient⟩]).map
        (fun p => p.1.fromAddr) = [eng.sender] ∧
    eng.sender ≠ envelope.Sender := by
  refine ⟨fun s2 => rfl, ?_, rfl, Ne.symm hdiff⟩
  simp [HttpMailerFunc, MailGunMailer.SendMail, h]

/-- C9 (witness): instance of `provider_sender_is_engine_sender` at an
envelope carrying a non-empty foreign sender. -/
theorem provider_sender_is_engine_sender_witness :
    ((HttpMailerFunc (NewMailGun "dom" "key" "info@suricata.com")
        ⟨"attacker@evil", "body", "subject", "to@x"⟩).2).sendChannel =
      some [⟨"info@suricata.com", "body", "subject", "to@x"⟩] :=
  (provider_sender_is_engine_sender (NewMailGun "dom" "key" "info@suricata.com") []
    ⟨"attacker@evil", "body", "subject", "to@x"⟩ (fun _ => ("", "", none)) rfl
    (by decide) (by decide)).2.1

/-- C10: with the actual serializer — `json.Marshal` on `Email`, a struct of
three plain string fields, which has no error path — the serialization-error
branch of `SendMail` is unreachable, and the result (error and POSTs) is
fully determined by the resolution outcome and the POST outcome. -/
theorem sendMail_determined_by_resolution_and_post (client : SuricataMailClient)
    (post : String → String → String → String × Option GoErr)
    (recipient subject message : String) :
    client.SendMail jsonMarshal post recipient subject message =
      sendMailOutcome client post recipient subject message := by
  rcases hres : client.resolveUrl with ⟨url, err⟩
  rcases err with _ | e
  · rcases hpost : post url HttpMIMEBodyType
        (jsonMarshalEmail (sendMailEmail recipient subject message)) with ⟨resp, perr⟩
    rcases perr with _ | pe <;>
      simp [SuricataMailClient.SendMail, sendMailOutcome, jsonMarshal, hres, hpost]
  · simp [SuricataMailClient.SendMail, sendMailOutcome, hres]

end MailVerify
